import Mathlib

/-!
Verification of the Sensora repository against its specification.

The repository's visible source is a Next.js frontend: a landing page, a
bio-calibration wizard page, a neuro-brief page with a valence/arousal mood
quadrant, wellness widgets, and a zustand user-profile store.  Numeric values
(JS numbers) are embedded as rationals; JS strings as Lean strings (free-text
prompts, whose trimming matters, as lists of characters); nullable values as
Option; page and store state as explicit records with pure step functions.

The formulation pipeline itself (Emotion Mapper, Physio retrieval, Formula
Assembler, Compliance Validator, Orchestrator) is documented in the spec but
absent from the visible source; those components are modelled from the spec,
as marked on each definition.
-/

namespace Sensora

/-! ### Mood quadrant (neuro-brief page, `MoodQuadrant`)

`getMoodLabel` translates the label function of the mood quadrant component:

    if (valence > 0.15 && arousal > 0.15) return 'Excited / Joyful'
    if (valence > 0.15 && arousal < -0.15) return 'Calm / Content'
    if (valence < -0.15 && arousal > 0.15) return 'Tense / Anxious'
    if (valence < -0.15 && arousal < -0.15) return 'Melancholic / Sad'
    return 'Neutral / Balanced'
-/

def getMoodLabel (valence arousal : ℚ) : String :=
  if 0.15 < valence ∧ 0.15 < arousal then "Excited / Joyful"
  else if 0.15 < valence ∧ arousal < -0.15 then "Calm / Content"
  else if valence < -0.15 ∧ 0.15 < arousal then "Tense / Anxious"
  else if valence < -0.15 ∧ arousal < -0.15 then "Melancholic / Sad"
  else "Neutral / Balanced"

/-- `handleClick` of `MoodQuadrant`: maps click coordinates relative to the
element's bounding rectangle linearly onto valence/arousal:

    x = (clientX - rect.left) / rect.width
    y = 1 - (clientY - rect.top) / rect.height
    newValence = x * 2 - 1
    newArousal = y * 2 - 1

The pair is handed to `onPositionChange` unconditionally; the handler has no
clamping step and no rejection branch. -/
def handleClick (clientX clientY rectLeft rectTop rectWidth rectHeight : ℚ) : ℚ × ℚ :=
  ((clientX - rectLeft) / rectWidth * 2 - 1,
   (1 - (clientY - rectTop) / rectHeight) * 2 - 1)

/-- C1 counterexample: at valence 0.5, arousal 0.1 the code returns
"Neutral / Balanced" although the point is not within ±0.15 of the origin on
both axes — the code's neutral region is the cross `|v| ≤ 0.15 ∨ |a| ≤ 0.15`,
not the square `|v| ≤ 0.15 ∧ |a| ≤ 0.15` the claim states. -/
theorem getMoodLabel_cross_neutral_cex :
    getMoodLabel 0.5 0.1 = "Neutral / Balanced" ∧
      ¬(|(0.5 : ℚ)| ≤ 0.15 ∧ |(0.1 : ℚ)| ≤ 0.15) := by
  constructor
  · unfold getMoodLabel
    norm_num
  · rw [abs_of_pos (by norm_num : (0 : ℚ) < 0.5), abs_of_pos (by norm_num : (0 : ℚ) < 0.1)]
    norm_num

/-- C1 (amended): on `[-1,1] × [-1,1]`, `getMoodLabel` returns
"Neutral / Balanced" iff `|valence| ≤ 0.15` or `|arousal| ≤ 0.15`; when both
coordinates exceed the 0.15 band in absolute value, it returns the label of
the sign-determined quadrant. -/
theorem getMoodLabel_regions (v a : ℚ) (_hv1 : -1 ≤ v) (_hv2 : v ≤ 1)
    (_ha1 : -1 ≤ a) (_ha2 : a ≤ 1) :
    (getMoodLabel v a = "Neutral / Balanced" ↔ |v| ≤ 0.15 ∨ |a| ≤ 0.15) ∧
    (0.15 < v → 0.15 < a → getMoodLabel v a = "Excited / Joyful") ∧
    (0.15 < v → a < -0.15 → getMoodLabel v a = "Calm / Content") ∧
    (v < -0.15 → 0.15 < a → getMoodLabel v a = "Tense / Anxious") ∧
    (v < -0.15 → a < -0.15 → getMoodLabel v a = "Melancholic / Sad") := by
  unfold getMoodLabel
  split_ifs with h1 h2 h3 h4
  · obtain ⟨hA, hB⟩ := h1
    refine ⟨iff_of_false (by decide) ?_, fun _ _ => rfl, ?_, ?_, ?_⟩
    · rintro (hc | hc) <;> rw [abs_le] at hc
      · linarith [hc.2]
      · linarith [hc.2]
    · intro _ hc; linarith
    · intro hc _; linarith
    · intro hc _; linarith
  · obtain ⟨hA, hB⟩ := h2
    refine ⟨iff_of_false (by decide) ?_, ?_, fun _ _ => rfl, ?_, ?_⟩
    · rintro (hc | hc) <;> rw [abs_le] at hc
      · linarith [hc.2]
      · linarith [hc.1]
    · intro _ hc; linarith
    · intro hc _; linarith
    · intro hc _; linarith
  · obtain ⟨hA, hB⟩ := h3
    refine ⟨iff_of_false (by decide) ?_, ?_, ?_, fun _ _ => rfl, ?_⟩
    · rintro (hc | hc) <;> rw [abs_le] at hc
      · linarith [hc.1]
      · linarith [hc.2]
    · intro hc _; linarith
    · intro hc _; linarith
    · intro _ hc; linarith
  · obtain ⟨hA, hB⟩ := h4
    refine ⟨iff_of_false (by decide) ?_, ?_, ?_, ?_, fun _ _ => rfl⟩
    · rintro (hc | hc) <;> rw [abs_le] at hc
      · linarith [hc.1]
      · linarith [hc.1]
    · intro hc _; linarith
    · intro hc _; linarith
    · intro _ hc; linarith
  · push_neg at h1 h2 h3 h4
    refine ⟨iff_of_true rfl ?_, ?_, ?_, ?_, ?_⟩
    · by_contra hc
      push_neg at hc
      obtain ⟨hcv, hca⟩ := hc
      rw [lt_abs] at hcv hca
      rcases hcv with hv | hv <;> rcases hca with ha | ha
      · linarith [h1 hv]
      · linarith [h2 hv]
      · linarith [h3 (by linarith : v < -0.15)]
      · linarith [h4 (by linarith : v < -0.15)]
    · intro hA hB; linarith [h1 hA]
    · intro hA hB; linarith [h2 hA]
    · intro hA hB; linarith [h3 hA]
    · intro hA hB; linarith [h4 hA]

/-- C1 witness: the amended region description instantiated at (1, 1). -/
theorem getMoodLabel_regions_witness :
    getMoodLabel 1 1 = "Neutral / Balanced" ↔ |(1 : ℚ)| ≤ 0.15 ∨ |(1 : ℚ)| ≤ 0.15 :=
  (getMoodLabel_regions 1 1 (by decide) (by decide) (by decide) (by decide)).1

/-- C2 counterexample: a click event whose coordinates lie outside the
element's rectangle (clientX = 300 on a 100-wide rectangle at the origin) is
delivered to the consumer as valence 5 — outside [-1,1] and unclamped. -/
theorem handleClick_no_clamp_cex :
    (handleClick 300 0 0 0 100 100).1 = 5 ∧ ¬((handleClick 300 0 0 0 100 100).1 ≤ 1) := by
  constructor
  · unfold handleClick
    norm_num
  · unfold handleClick
    norm_num

/-- C2 (amended): for click coordinates inside the element's bounding
rectangle, the linear mapping keeps the delivered valence/arousal inside
[-1,1] × [-1,1]; the handler is total, so no input is rejected.  Out-of-range
coordinates are not clamped (see the counterexample). -/
theorem handleClick_in_rect_bounds (cx cy l t w h : ℚ) (hw : 0 < w) (hh : 0 < h)
    (hx1 : l ≤ cx) (hx2 : cx ≤ l + w) (hy1 : t ≤ cy) (hy2 : cy ≤ t + h) :
    -1 ≤ (handleClick cx cy l t w h).1 ∧ (handleClick cx cy l t w h).1 ≤ 1 ∧
    -1 ≤ (handleClick cx cy l t w h).2 ∧ (handleClick cx cy l t w h).2 ≤ 1 := by
  unfold handleClick
  have hx0 : 0 ≤ (cx - l) / w := div_nonneg (by linarith) hw.le
  have hx3 : (cx - l) / w ≤ 1 := (div_le_one hw).mpr (by linarith)
  have hy0 : 0 ≤ (cy - t) / h := div_nonneg (by linarith) hh.le
  have hy3 : (cy - t) / h ≤ 1 := (div_le_one hh).mpr (by linarith)
  exact ⟨by dsimp only; linarith, by dsimp only; linarith,
         by dsimp only; linarith, by dsimp only; linarith⟩

lemma fifty_le_zero_add_hundred : (50 : ℚ) ≤ 0 + 100 := by norm_num

/-- C2 witness: an in-rectangle click (center of a 100 × 100 rectangle). -/
theorem handleClick_in_rect_bounds_witness :
    -1 ≤ (handleClick 50 50 0 0 100 100).1 ∧ (handleClick 50 50 0 0 100 100).1 ≤ 1 ∧
    -1 ≤ (handleClick 50 50 0 0 100 100).2 ∧ (handleClick 50 50 0 0 100 100).2 ≤ 1 :=
  handleClick_in_rect_bounds 50 50 0 0 100 100 (by decide) (by decide)
    (by decide) fifty_le_zero_add_hundred (by decide) fifty_le_zero_add_hundred

/-- C4: at valence 0.3, arousal 0.2 the mood labeling picks the bright
high-valence/high-arousal quadrant, "Excited / Joyful". -/
theorem getMoodLabel_excited_case : getMoodLabel 0.3 0.2 = "Excited / Joyful" := by
  unfold getMoodLabel
  norm_num

/-! ### Neuro-brief page submission (`NeuroBriefPage.handleSubmit`)

The page state holds the free-text prompt (as a list of characters, so the
JS `prompt.trim()` is explicit) and the valence/arousal set by the mood
quadrant.  The submit gate is `canProceed = prompt.trim().length > 10`; on
success the handler stores `{prompt, valence, arousal, timestamp}` and
navigates to `/result`, otherwise it returns immediately with no store write
and no navigation (modelled as `none`). -/

/-- Leading/trailing-whitespace removal, the semantics of JS
`String.prototype.trim` on the character sequence. -/
def trimChars (s : List Char) : List Char :=
  ((s.dropWhile Char.isWhitespace).reverse.dropWhile Char.isWhitespace).reverse

structure NeuroBriefPageState where
  prompt : List Char
  valence : ℚ
  arousal : ℚ
deriving DecidableEq

structure NeuroBriefRecord where
  prompt : List Char
  valence : ℚ
  arousal : ℚ
  timestamp : String
deriving DecidableEq

def canProceedNB (st : NeuroBriefPageState) : Bool :=
  10 < (trimChars st.prompt).length

def handleSubmitNB (now : String) (st : NeuroBriefPageState) :
    Option (NeuroBriefRecord × String) :=
  if canProceedNB st then
    some ({ prompt := st.prompt, valence := st.valence, arousal := st.arousal,
            timestamp := now }, "/result")
  else none

/-- C8: the submit handler persists the record and navigates iff the trimmed
prompt is strictly longer than 10 characters; at trimmed length ≤ 10 (even
when whitespace padding pushes the raw length past the displayed 10-character
minimum) nothing is stored and no navigation happens. -/
theorem handleSubmitNB_gate (now : String) (st : NeuroBriefPageState) :
    (10 < (trimChars st.prompt).length →
      handleSubmitNB now st =
        some (⟨st.prompt, st.valence, st.arousal, now⟩, "/result")) ∧
    ((trimChars st.prompt).length ≤ 10 → handleSubmitNB now st = none) := by
  constructor
  · intro hlen
    unfold handleSubmitNB
    rw [if_pos]
    unfold canProceedNB
    simpa using hlen
  · intro hlen
    unfold handleSubmitNB
    rw [if_neg]
    unfold canProceedNB
    simpa using Nat.not_lt.mpr hlen

/-- Example page states for the neuro-brief gate: a prompt of 5 letters padded
with whitespace to raw length 12, and an unpadded 14-letter prompt. -/
def nbShortEx : NeuroBriefPageState := ⟨"scent       ".toList, 0.3, 0.2⟩

def nbLongEx : NeuroBriefPageState := ⟨"a misty garden".toList, 0.3, 0.2⟩

/-- C8 witness: the padded short prompt is rejected (nothing stored, no
navigation) while the long prompt is stored and routed to `/result`. -/
theorem handleSubmitNB_gate_witness :
    handleSubmitNB "2026-01-01T00:00:00.000Z" nbShortEx = none ∧
    handleSubmitNB "2026-01-01T00:00:00.000Z" nbLongEx =
      some (⟨nbLongEx.prompt, nbLongEx.valence, nbLongEx.arousal,
             "2026-01-01T00:00:00.000Z"⟩, "/result") :=
  ⟨(handleSubmitNB_gate "2026-01-01T00:00:00.000Z" nbShortEx).2 (by decide),
   (handleSubmitNB_gate "2026-01-01T00:00:00.000Z" nbLongEx).1 (by decide)⟩

/-! ### Calibration page (`CalibrationPage`, frontend light-theme version)

Page state: `ph` (slider, min 3.0 / max 9.0), `skinType` (set by clicking one
of the three cards, ids `dry`/`normal`/`oily`), `temperature` (slider,
min 35.0 / max 38.0), `stressLevel` (preset buttons), `heartRate` (slider),
`lifestyleScenario`, `isSubmitting`, and the record written to
`localStorage['sensora_calibration']` on submit (`stored`).

`handleSubmit` returns immediately unless `canProceed = skinType !== null`;
the submit button is additionally disabled while `isSubmitting`, and
`isSubmitting` is never reset on this page, so at most one record is ever
written.  `CalReachable` restricts slider events to the value ranges an HTML
range input with the source's min/max can emit, and skin-type events to the
three card ids. -/

structure CalRecord where
  ph : ℚ
  skinType : String
  temperature : ℚ
  stressLevel : ℚ
  heartRate : ℚ
  lifestyleScenario : String
  timestamp : String
deriving DecidableEq

structure CalPageState where
  ph : ℚ
  skinType : Option String
  temperature : ℚ
  stressLevel : ℚ
  heartRate : ℚ
  lifestyleScenario : String
  isSubmitting : Bool
  stored : Option CalRecord
deriving DecidableEq

def skinTypeIds : List String := ["dry", "normal", "oily"]

/-- Initial `useState` values of the calibration page. -/
def calInit : CalPageState :=
  { ph := 5.5, skinType := none, temperature := 36.5, stressLevel := 50,
    heartRate := 72, lifestyleScenario := "", isSubmitting := false,
    stored := none }

inductive CalEvent where
  | setPh (q : ℚ)
  | setSkinType (t : String)
  | setTemperature (q : ℚ)
  | setStressLevel (q : ℚ)
  | setHeartRate (q : ℚ)
  | setScenario (sc : String)
  | submit (now : String)

def calStep : CalEvent → CalPageState → CalPageState
  | .setPh q, s => { s with ph := q }
  | .setSkinType t, s => { s with skinType := some t }
  | .setTemperature q, s => { s with temperature := q }
  | .setStressLevel q, s => { s with stressLevel := q }
  | .setHeartRate q, s => { s with heartRate := q }
  | .setScenario sc, s => { s with lifestyleScenario := sc }
  | .submit now, s =>
      if s.isSubmitting then s
      else
        match s.skinType with
        | none => s
        | some t =>
            { s with isSubmitting := true,
                     stored := some ⟨s.ph, t, s.temperature, s.stressLevel,
                                     s.heartRate, s.lifestyleScenario, now⟩ }

inductive CalReachable : CalPageState → Prop where
  | init : CalReachable calInit
  | setPh {s : CalPageState} {q : ℚ} : CalReachable s → 3 ≤ q → q ≤ 9 →
      CalReachable (calStep (.setPh q) s)
  | setSkinType {s : CalPageState} {t : String} : CalReachable s →
      t ∈ skinTypeIds → CalReachable (calStep (.setSkinType t) s)
  | setTemperature {s : CalPageState} {q : ℚ} : CalReachable s → 35 ≤ q →
      q ≤ 38 → CalReachable (calStep (.setTemperature q) s)
  | setStressLevel {s : CalPageState} {q : ℚ} : CalReachable s →
      CalReachable (calStep (.setStressLevel q) s)
  | setHeartRate {s : CalPageState} {q : ℚ} : CalReachable s →
      CalReachable (calStep (.setHeartRate q) s)
  | setScenario {s : CalPageState} {sc : String} : CalReachable s →
      CalReachable (calStep (.setScenario sc) s)
  | submit {s : CalPageState} {now : String} : CalReachable s →
      CalReachable (calStep (.submit now) s)

/-- Inductive invariant of the calibration page: the sliders stay within the
source's min/max, any selected skin type is one of the three card ids, and a
stored record implies `isSubmitting` and carries in-range values. -/
def CalInv (s : CalPageState) : Prop :=
  3 ≤ s.ph ∧ s.ph ≤ 9 ∧ 35 ≤ s.temperature ∧ s.temperature ≤ 38 ∧
  (∀ t, s.skinType = some t → t ∈ skinTypeIds) ∧
  (∀ r, s.stored = some r →
    s.isSubmitting = true ∧ 3 ≤ r.ph ∧ r.ph ≤ 9 ∧ 35 ≤ r.temperature ∧
      r.temperature ≤ 38 ∧ r.skinType ∈ skinTypeIds)

lemma calReachable_inv {s : CalPageState} (h : CalReachable s) : CalInv s := by
  induction h with
  | init =>
    refine ⟨by norm_num [calInit], by norm_num [calInit], by norm_num [calInit],
            by norm_num [calInit], ?_, ?_⟩
    · intro t ht; simp [calInit] at ht
    · intro r hr; simp [calInit] at hr
  | @setPh s q h hq1 hq2 ih =>
    obtain ⟨-, -, i3, i4, i5, i6⟩ := ih
    exact ⟨hq1, hq2, i3, i4, i5, i6⟩
  | @setSkinType s t h ht ih =>
    obtain ⟨i1, i2, i3, i4, -, i6⟩ := ih
    refine ⟨i1, i2, i3, i4, ?_, i6⟩
    intro t' ht'
    cases ht'
    exact ht
  | @setTemperature s q h hq1 hq2 ih =>
    obtain ⟨i1, i2, -, -, i5, i6⟩ := ih
    exact ⟨i1, i2, hq1, hq2, i5, i6⟩
  | @setStressLevel s q h ih => exact ih
  | @setHeartRate s q h ih => exact ih
  | @setScenario s sc h ih => exact ih
  | @submit s now h ih =>
    obtain ⟨i1, i2, i3, i4, i5, i6⟩ := ih
    by_cases hsub : s.isSubmitting
    · simpa [calStep, hsub] using ⟨i1, i2, i3, i4, i5, i6⟩
    · rcases hskin : s.skinType with - | t
      · simpa [calStep, hsub, hskin] using ⟨i1, i2, i3, i4, i5, i6⟩
      · simp only [calStep, hsub, hskin, if_neg, Bool.false_eq_true,
                   not_false_iff, if_false]
        refine ⟨i1, i2, i3, i4, ?_, ?_⟩
        · intro t' ht'
          cases ht'
          exact i5 t hskin
        · intro r hr
          cases hr
          exact ⟨rfl, i1, i2, i3, i4, i5 t hskin⟩

/-- C3: every record captured by the calibration submit handler from a
reachable page state has ph in [3, 9], temperature in [35, 38], and a skin
type among the three enumerated ids (submission is impossible while the skin
type is unset); and once stored the record is never changed by any further
page event. -/
theorem calibrationCapture_ranges (s : CalPageState) (r : CalRecord)
    (e : CalEvent) (hs : CalReachable s) (hr : s.stored = some r) :
    (3 ≤ r.ph ∧ r.ph ≤ 9) ∧ (35 ≤ r.temperature ∧ r.temperature ≤ 38) ∧
    r.skinType ∈ skinTypeIds ∧ (calStep e s).stored = some r := by
  obtain ⟨-, -, -, -, -, i6⟩ := calReachable_inv hs
  obtain ⟨hsub, j1, j2, j3, j4, j5⟩ := i6 r hr
  refine ⟨⟨j1, j2⟩, ⟨j3, j4⟩, j5, ?_⟩
  cases e with
  | setPh q => exact hr
  | setSkinType t => exact hr
  | setTemperature q => exact hr
  | setStressLevel q => exact hr
  | setHeartRate q => exact hr
  | setScenario sc => exact hr
  | submit now => simpa [calStep, hsub] using hr

/-- A reachable submitted state: select skin type "dry", then submit. -/
def calStateEx : CalPageState :=
  calStep (.submit "t0") (calStep (.setSkinType "dry") calInit)

def calRecEx : CalRecord := ⟨5.5, "dry", 36.5, 50, 72, "", "t0"⟩

/-- C3 witness: the record captured in the example run is in range and
survives a later slider event unchanged. -/
theorem calibrationCapture_ranges_witness :
    (3 ≤ calRecEx.ph ∧ calRecEx.ph ≤ 9) ∧
    (35 ≤ calRecEx.temperature ∧ calRecEx.temperature ≤ 38) ∧
    calRecEx.skinType ∈ skinTypeIds ∧
    (calStep (.setPh 4) calStateEx).stored = some calRecEx :=
  calibrationCapture_ranges calStateEx calRecEx (.setPh 4)
    (CalReachable.submit (CalReachable.setSkinType CalReachable.init (by decide)))
    rfl

/-! ### User-profile store (`useUserProfileStore`)

The zustand store holds the calibration slice, the neuro-brief slice, the
generated formula, the wizard step, the loading flag and the error slot.
`setCalibration`/`setNeuroBrief` take a partial update, spread it over the
previous slice and then overwrite the slice's `timestamp` with the current
ISO time; zustand's `set` merges at the top level, so the other slices are
untouched.  Partial updates are modelled with one `Option` per field:
`none` means the field is absent from the update object. -/

inductive SkinType where
  | dry
  | normal
  | oily
deriving DecidableEq

structure CalibrationData where
  ph : ℚ
  skinType : Option SkinType
  temperature : ℚ
  timestamp : Option String
deriving DecidableEq

structure NeuroBriefData where
  prompt : List Char
  valence : ℚ
  arousal : ℚ
  timestamp : Option String
deriving DecidableEq

structure StoreIngredient where
  name : String
  concentration : ℚ
  sustainable : Bool
deriving DecidableEq

structure FormulaMetrics where
  longevity : ℚ
  projection : ℚ
  uniqueness : ℚ
  sustainability : ℚ
  ifraCompliance : ℚ
deriving DecidableEq

structure FormulaData where
  id : Option String
  name : String
  description : String
  topNotes : List StoreIngredient
  middleNotes : List StoreIngredient
  baseNotes : List StoreIngredient
  metrics : FormulaMetrics
  physioCorrections : List String
  createdAt : Option String
deriving DecidableEq

structure StoreState where
  calibration : CalibrationData
  neuroBrief : NeuroBriefData
  formula : Option FormulaData
  currentStep : ℤ
  isGenerating : Bool
  error : Option String
deriving DecidableEq

def initialCalibration : CalibrationData :=
  { ph := 5.5, skinType := none, temperature := 36.5, timestamp := none }

def initialNeuroBrief : NeuroBriefData :=
  { prompt := [], valence := 0, arousal := 0, timestamp := none }

/-- A partial calibration update: `none` per field means "not named in the
update object". -/
structure CalibrationPatch where
  ph : Option ℚ := none
  skinType : Option (Option SkinType) := none
  temperature : Option ℚ := none
  timestamp : Option (Option String) := none

structure NeuroBriefPatch where
  prompt : Option (List Char) := none
  valence : Option ℚ := none
  arousal : Option ℚ := none
  timestamp : Option (Option String) := none

/-- `setCalibration`: spread of the patch over the previous slice, then the
timestamp is overwritten with the current time; zustand merges top-level, so
every other slice is carried over. -/
def setCalibration (now : String) (d : CalibrationPatch) (s : StoreState) : StoreState :=
  { s with calibration :=
      { ph := d.ph.getD s.calibration.ph
        skinType := d.skinType.getD s.calibration.skinType
        temperature := d.temperature.getD s.calibration.temperature
        timestamp := some now } }

def setNeuroBrief (now : String) (d : NeuroBriefPatch) (s : StoreState) : StoreState :=
  { s with neuroBrief :=
      { prompt := d.prompt.getD s.neuroBrief.prompt
        valence := d.valence.getD s.neuroBrief.valence
        arousal := d.arousal.getD s.neuroBrief.arousal
        timestamp := some now } }

def resetAll (_s : StoreState) : StoreState :=
  { calibration := initialCalibration, neuroBrief := initialNeuroBrief,
    formula := none, currentStep := 0, isGenerating := false, error := none }

def isCalibrationComplete (s : StoreState) : Bool :=
  s.calibration.skinType.isSome && s.calibration.timestamp.isSome

def isNeuroBriefComplete (s : StoreState) : Bool :=
  (10 ≤ s.neuroBrief.prompt.length) && s.neuroBrief.timestamp.isSome

/-- C9: `setCalibration d` keeps every calibration field not named in `d` at
its previous value, always refreshes `calibration.timestamp` to the current
time, and leaves the other store slices untouched; `setNeuroBrief` behaves
symmetrically for its slice. -/
theorem setters_frame (now : String) (d : CalibrationPatch)
    (e : NeuroBriefPatch) (s : StoreState) :
    (d.ph = none → (setCalibration now d s).calibration.ph = s.calibration.ph) ∧
    (d.skinType = none →
      (setCalibration now d s).calibration.skinType = s.calibration.skinType) ∧
    (d.temperature = none →
      (setCalibration now d s).calibration.temperature = s.calibration.temperature) ∧
    (setCalibration now d s).calibration.timestamp = some now ∧
    (setCalibration now d s).neuroBrief = s.neuroBrief ∧
    (setCalibration now d s).formula = s.formula ∧
    (setCalibration now d s).currentStep = s.currentStep ∧
    (setCalibration now d s).isGenerating = s.isGenerating ∧
    (setCalibration now d s).error = s.error ∧
    (e.prompt = none →
      (setNeuroBrief now e s).neuroBrief.prompt = s.neuroBrief.prompt) ∧
    (e.valence = none →
      (setNeuroBrief now e s).neuroBrief.valence = s.neuroBrief.valence) ∧
    (e.arousal = none →
      (setNeuroBrief now e s).neuroBrief.arousal = s.neuroBrief.arousal) ∧
    (setNeuroBrief now e s).neuroBrief.timestamp = some now ∧
    (setNeuroBrief now e s).calibration = s.calibration ∧
    (setNeuroBrief now e s).formula = s.formula ∧
    (setNeuroBrief now e s).currentStep = s.currentStep ∧
    (setNeuroBrief now e s).isGenerating = s.isGenerating ∧
    (setNeuroBrief now e s).error = s.error := by
  refine ⟨?_, ?_, ?_, rfl, rfl, rfl, rfl, rfl, rfl, ?_, ?_, ?_, rfl, rfl, rfl,
          rfl, rfl, rfl⟩ <;>
    (intro h; simp [setCalibration, setNeuroBrief, h])

/-- Example store state with nontrivial slice contents for the C9 witness. -/
def storeEx : StoreState :=
  { calibration := ⟨6, some SkinType.dry, 37, some "t0"⟩,
    neuroBrief := ⟨"warm amber".toList, 0.3, 0.2, some "t0"⟩,
    formula := none, currentStep := 1, isGenerating := false, error := none }

/-- C9 witness: an empty patch at the example state keeps the untouched
fields and slices, while the timestamps refresh. -/
theorem setters_frame_witness :
    (setCalibration "t1" {} storeEx).calibration.ph = storeEx.calibration.ph ∧
    (setCalibration "t1" {} storeEx).calibration.timestamp = some "t1" ∧
    (setCalibration "t1" {} storeEx).neuroBrief = storeEx.neuroBrief ∧
    (setNeuroBrief "t1" {} storeEx).neuroBrief.prompt = storeEx.neuroBrief.prompt ∧
    (setNeuroBrief "t1" {} storeEx).calibration = storeEx.calibration :=
  ⟨(setters_frame "t1" {} {} storeEx).1 rfl,
   (setters_frame "t1" {} {} storeEx).2.2.2.1,
   (setters_frame "t1" {} {} storeEx).2.2.2.2.1,
   (setters_frame "t1" {} {} storeEx).2.2.2.2.2.2.2.2.2.1 rfl,
   (setters_frame "t1" {} {} storeEx).2.2.2.2.2.2.2.2.2.2.2.2.2.1⟩

/-! ### Formulation pipeline (spec §4)

The pipeline below is documented in the spec but has no implementation in
the visible source; each definition is modelled from the spec's words.
Real-valued quantities are rationals; the spec's "within floating tolerance"
becomes exact rational equality. -/

/-- Modelled from the spec: clamping of out-of-range valence/arousal to
[-1,1] (§4.1 failure behavior); the Emotion Mapper implementation is missing
from the source. -/
def clampQ (x : ℚ) : ℚ := max (-1) (min 1 x)

/-- Modelled from the spec: the Emotion Mapper's output type, one weight per
quadrant accord family — bright/citrus/floral, calm/woody/musk,
sharp/spicy/green, deep/resinous/smoky (§4.1). -/
structure WeightedAccords where
  bright : ℚ
  calm : ℚ
  sharp : ℚ
  deep : ℚ
deriving DecidableEq

def sumWeights (w : WeightedAccords) : ℚ := w.bright + w.calm + w.sharp + w.deep

/-- Modelled from the spec: saturating radial measure for the within-quadrant
blend (§4.1) — 0 at the origin, saturated at 1 from Euclidean distance 1
outward.  To stay rational it is computed on the squared Euclidean distance
`v² + a²`, a monotone surrogate that agrees with the spec's saturating
Euclidean distance at the origin and on the saturated region; the claims
under verification depend only on it lying in [0,1]. -/
def radialBlend (v a : ℚ) : ℚ := min 1 (v ^ 2 + a ^ 2)

/-- Share of the dominant quadrant family: 1/4 at the origin (even blend of
all four quadrants) growing to 1 at saturation. -/
def dominantShare (v a : ℚ) : ℚ := 1 / 4 + 3 / 4 * radialBlend v a

def minorShare (v a : ℚ) : ℚ := (1 - dominantShare v a) / 3

/-- Modelled from the spec: `EmotionMapper.map` (§4.1), missing from the
source.  Inputs are clamped to [-1,1]; the quadrant is chosen with the same
±0.15 thresholds as the UI's `getMoodLabel`; the dominant family's weight
grows with distance from the origin, saturating at the dominant family; the
near-origin band blends all four quadrants evenly. -/
def EmotionMapper.map (valence arousal : ℚ) : WeightedAccords :=
  let v := clampQ valence
  let a := clampQ arousal
  let s := dominantShare v a
  let o := minorShare v a
  if 0.15 < v ∧ 0.15 < a then ⟨s, o, o, o⟩
  else if 0.15 < v ∧ a < -0.15 then ⟨o, s, o, o⟩
  else if v < -0.15 ∧ 0.15 < a then ⟨o, o, s, o⟩
  else if v < -0.15 ∧ a < -0.15 then ⟨o, o, o, s⟩
  else ⟨1 / 4, 1 / 4, 1 / 4, 1 / 4⟩

lemma radialBlend_nonneg (v a : ℚ) : 0 ≤ radialBlend v a :=
  le_min zero_le_one (by positivity)

lemma radialBlend_le_one (v a : ℚ) : radialBlend v a ≤ 1 := min_le_left _ _

lemma dominantShare_bounds (v a : ℚ) :
    1 / 4 ≤ dominantShare v a ∧ dominantShare v a ≤ 1 := by
  unfold dominantShare
  constructor <;> linarith [radialBlend_nonneg v a, radialBlend_le_one v a]

lemma minorShare_bounds (v a : ℚ) : 0 ≤ minorShare v a ∧ minorShare v a ≤ 1 := by
  unfold minorShare
  obtain ⟨h1, h2⟩ := dominantShare_bounds v a
  constructor <;> linarith

lemma dominant_add_three_minor (v a : ℚ) :
    dominantShare v a + 3 * minorShare v a = 1 := by
  unfold minorShare
  ring

/-- C5: for every valence/arousal pair (clamped internally to [-1,1]²) the
Emotion Mapper yields per-family weights each in [0,1] that sum to exactly 1,
and it is deterministic — a pure function, so identical inputs give
identical weights. -/
theorem emotionMapper_weights (valence arousal : ℚ) :
    (0 ≤ (EmotionMapper.map valence arousal).bright ∧
      (EmotionMapper.map valence arousal).bright ≤ 1) ∧
    (0 ≤ (EmotionMapper.map valence arousal).calm ∧
      (EmotionMapper.map valence arousal).calm ≤ 1) ∧
    (0 ≤ (EmotionMapper.map valence arousal).sharp ∧
      (EmotionMapper.map valence arousal).sharp ≤ 1) ∧
    (0 ≤ (EmotionMapper.map valence arousal).deep ∧
      (EmotionMapper.map valence arousal).deep ≤ 1) ∧
    sumWeights (EmotionMapper.map valence arousal) = 1 ∧
    EmotionMapper.map valence arousal = EmotionMapper.map valence arousal := by
  obtain ⟨hs1, hs2⟩ := dominantShare_bounds (clampQ valence) (clampQ arousal)
  obtain ⟨ho1, ho2⟩ := minorShare_bounds (clampQ valence) (clampQ arousal)
  have hsum := dominant_add_three_minor (clampQ valence) (clampQ arousal)
  unfold EmotionMapper.map sumWeights
  dsimp only
  split_ifs <;>
    exact ⟨⟨by linarith, by linarith⟩, ⟨by linarith, by linarith⟩,
           ⟨by linarith, by linarith⟩, ⟨by linarith, by linarith⟩,
           by dsimp only; linarith, rfl⟩

/-! #### Ingredient catalog, compliance validator, orchestrator -/

inductive NoteClass where
  | top
  | middle
  | base
deriving DecidableEq

inductive Family where
  | bright
  | calm
  | sharp
  | deep
  | neutral
deriving DecidableEq

/-- Modelled from the spec: `IngredientRecord` of the Ingredient Catalog
(§3), missing from the source; the structural descriptor is elided since no
claim touches molecular properties. -/
structure IngredientRecord where
  name : String
  family : Family
  noteClass : NoteClass
  baseConcentrationPct : ℚ
  category : String
  sustainable : Bool
deriving DecidableEq

/-- Modelled from the spec: a small static catalog with a designated neutral
ingredient per note class (§4.4 fallback requirement). -/
def catalog : List IngredientRecord :=
  [⟨"Bergamot", .bright, .top, 12, "citrus", true⟩,
   ⟨"Petitgrain", .sharp, .top, 10, "green", true⟩,
   ⟨"Neutral Top Accord", .neutral, .top, 8, "solvent", true⟩,
   ⟨"Rose Absolute", .bright, .middle, 15, "floral", false⟩,
   ⟨"Geranium", .sharp, .middle, 12, "green", true⟩,
   ⟨"Neutral Heart Accord", .neutral, .middle, 10, "floral", true⟩,
   ⟨"Sandalwood", .calm, .base, 20, "woody", true⟩,
   ⟨"Labdanum", .deep, .base, 18, "resinoid", true⟩,
   ⟨"Musk Blend", .calm, .base, 55, "musk", false⟩,
   ⟨"Neutral Base Accord", .neutral, .base, 15, "woody", true⟩]

/-- Modelled from the spec: the fixed external table of regulatory category
ceilings (§4.5). -/
def ceilingTable : String → ℚ := fun cat =>
  if cat = "musk" then 12 else if cat = "citrus" then 20 else 30

/-- A draft-formula entry: ingredient identity plus its concentration. -/
structure FEntry where
  name : String
  category : String
  family : Family
  noteClass : NoteClass
  sustainable : Bool
  concentration : ℚ
deriving DecidableEq

structure ViolationRec where
  ingredient : String
  limitPct : ℚ
  observedPct : ℚ
  category : String
deriving DecidableEq

structure ComplianceResult where
  valid : Bool
  violations : List ViolationRec
deriving DecidableEq

/-- Modelled from the spec: the Compliance Validator's per-ingredient
adjustment (§4.5) — an observed concentration above the category ceiling is
reduced to the ceiling, anything else is untouched.  Redistribution of the
removed mass is optional per §4.5 and is not performed. -/
def adjustEntry (ceil : String → ℚ) (e : FEntry) : FEntry :=
  if ceil e.category < e.concentration then
    { e with concentration := ceil e.category }
  else e

/-- The violation entry recorded for an over-ceiling ingredient, carrying the
pre-adjustment value as `observedPct`. -/
def violationOf (ceil : String → ℚ) (e : FEntry) : Option ViolationRec :=
  if ceil e.category < e.concentration then
    some ⟨e.name, ceil e.category, e.concentration, e.category⟩
  else none

/-- Modelled from the spec: `validate(draftFormula)` (§4.5), missing from the
source — adjusts every entry to its ceiling and records one violation per
adjusted entry; `valid` iff no violations remain. -/
def validate (ceil : String → ℚ) (draft : List FEntry) :
    List FEntry × ComplianceResult :=
  (draft.map (adjustEntry ceil),
   ⟨(draft.filterMap (violationOf ceil)).isEmpty,
    draft.filterMap (violationOf ceil)⟩)

/-- C6: the Compliance Validator never increases a concentration and never
drops one silently: the adjusted formula has one entry per draft entry, each
adjusted concentration is at most the observed one, and whenever an entry's
concentration changes it is reduced exactly to its category ceiling with a
violation recorded that carries the pre-adjustment value. -/
theorem validator_monotone_records (ceil : String → ℚ) (draft : List FEntry)
    (e : FEntry) (he : e ∈ draft) :
    (validate ceil draft).1.length = draft.length ∧
    (adjustEntry ceil e).concentration ≤ e.concentration ∧
    adjustEntry ceil e ∈ (validate ceil draft).1 ∧
    ((adjustEntry ceil e).concentration ≠ e.concentration →
      (adjustEntry ceil e).concentration = ceil e.category ∧
      (⟨e.name, ceil e.category, e.concentration, e.category⟩ : ViolationRec) ∈
        (validate ceil draft).2.violations) := by
  refine ⟨by simp [validate], ?_, ?_, ?_⟩
  · unfold adjustEntry
    split_ifs with h
    · exact le_of_lt h
    · exact le_refl _
  · exact List.mem_map_of_mem _ he
  · intro hne
    unfold adjustEntry at hne ⊢
    split_ifs at hne ⊢ with h
    · refine ⟨rfl, ?_⟩
      simp only [validate, List.mem_filterMap]
      exact ⟨e, he, by simp [violationOf, h]⟩
    · exact absurd rfl hne

def ceilEx : String → ℚ := fun c => if c = "musk" then 40 else 100

def muskEx : FEntry := ⟨"Musk Ketone", "musk", Family.calm, NoteClass.base, false, 50⟩

def draftEx : List FEntry := [muskEx]

/-- C6 witness: a base-note entry at 50 with ceiling 40 is reduced to the
ceiling and the violation carries observed 50. -/
theorem validator_monotone_records_witness :
    (validate ceilEx draftEx).1.length = draftEx.length ∧
    (adjustEntry ceilEx muskEx).concentration ≤ muskEx.concentration ∧
    ((adjustEntry ceilEx muskEx).concentration = ceilEx muskEx.category ∧
      (⟨muskEx.name, ceilEx muskEx.category, muskEx.concentration,
        muskEx.category⟩ : ViolationRec) ∈
        (validate ceilEx draftEx).2.violations) :=
  ⟨(validator_monotone_records ceilEx draftEx muskEx (by decide)).1,
   (validator_monotone_records ceilEx draftEx muskEx (by decide)).2.1,
   (validator_monotone_records ceilEx draftEx muskEx (by decide)).2.2.2 (by decide)⟩

/-! #### Assembler, keyword retrieval and the orchestrator -/

def weightOf (w : WeightedAccords) : Family → ℚ
  | .bright => w.bright
  | .calm => w.calm
  | .sharp => w.sharp
  | .deep => w.deep
  | .neutral => 0

/-- Note-class target shares 20/35/45 (§3, §4.4). -/
def classShare : NoteClass → ℚ
  | .top => 20
  | .middle => 35
  | .base => 45

/-- Modelled from the spec: ingredient selection for one note class (§4.4) —
catalog ingredients whose family carries nonzero accord weight, falling back
to the class's designated neutral ingredient under degenerate weights. -/
def selectForClass (w : WeightedAccords) (nc : NoteClass) : List IngredientRecord :=
  let sel := catalog.filter fun r => decide (r.noteClass = nc ∧ 0 < weightOf w r.family)
  if sel.isEmpty then
    catalog.filter fun r => decide (r.noteClass = nc ∧ r.family = Family.neutral)
  else sel

/-- Modelled from the spec: per-class assembly (§4.4) — each selected
ingredient's concentration is proportional to
`accordWeight × catalogDefaultShare`, normalized so the class partition sums
to its target share. -/
def assembleClass (w : WeightedAccords) (nc : NoteClass) : List FEntry :=
  let sel := selectForClass w nc
  let total := (sel.map fun r => weightOf w r.family * r.baseConcentrationPct).sum
  if total = 0 then
    sel.map fun r =>
      ⟨r.name, r.category, r.family, nc, r.sustainable, classShare nc / sel.length⟩
  else
    sel.map fun r =>
      ⟨r.name, r.category, r.family, nc, r.sustainable,
       classShare nc * (weightOf w r.family * r.baseConcentrationPct) / total⟩

/-- Modelled from the spec: `assemble(accordWeights, ...)` (§4.4), missing
from the source. -/
def assemble (w : WeightedAccords) : List FEntry :=
  assembleClass w .top ++ assembleClass w .middle ++ assembleClass w .base

/-- Modelled from the spec: a physiological correction rule of the rule
corpus (§4.3); the rule text is carried as its keyword tags, which is what
keyword-mode retrieval consults. -/
structure PhysioRule where
  ruleId : String
  keywords : List String
  targetFamily : Family
  adjustmentPct : ℚ
  rationale : String

def ruleCorpus : List PhysioRule :=
  [⟨"R1", ["dry"], .deep, 12, "dry skin: raise base-note fixative share"⟩,
   ⟨"R2", ["oily"], .calm, -10, "oily skin: reduce heavy musk concentration"⟩,
   ⟨"R3", ["hot"], .bright, 8, "temperature above 37C: front-load top notes"⟩,
   ⟨"R4", ["acidic", "dry"], .sharp, -5, "low pH: soften sharp green accords"⟩]

structure BiochemicalProfile where
  ph : ℚ
  skinType : SkinType
  temperatureC : ℚ

structure EmotionalTarget where
  valence : ℚ
  arousal : ℚ

def skinTypeKeyword : SkinType → String
  | .dry => "dry"
  | .normal => "normal"
  | .oily => "oily"

def phBand (ph : ℚ) : String :=
  if ph < 5 then "acidic" else if ph ≤ 7 then "balanced" else "alkaline"

def tempBand (t : ℚ) : String := if 37 < t then "hot" else "warm"

/-- Profile-derived keywords: skin type name, pH band, temperature band
(§4.3 keyword fallback mode). -/
def profileKeywords (p : BiochemicalProfile) : List String :=
  [skinTypeKeyword p.skinType, phBand p.ph, tempBand p.temperatureC]

structure CorrectionDirective where
  ruleId : String
  targetFamily : Family
  adjustmentPct : ℚ
  rationale : String
  relevanceScore : ℚ

/-- Keyword-mode relevance: the fraction of the three profile keywords that
appear in the rule text (§4.3). -/
def relevance (p : BiochemicalProfile) (r : PhysioRule) : ℚ :=
  (((profileKeywords p).filter fun k => decide (k ∈ r.keywords)).length : ℚ) / 3

def toDirective (p : BiochemicalProfile) (r : PhysioRule) : CorrectionDirective :=
  ⟨r.ruleId, r.targetFamily, r.adjustmentPct, r.rationale, relevance p r⟩

/-- Modelled from the spec: `retrieve(profile)` (§4.3) in keyword fallback
mode, missing from the source — all scored rules ranked by relevance
descending (the possible scores with three keywords are 1, 2/3, 1/3, 0, so
the ranking is by score bucket), ties in corpus order, top-3 returned. -/
def retrieve (p : BiochemicalProfile) : List CorrectionDirective :=
  let scored := ruleCorpus.map (toDirective p)
  ((scored.filter fun d => decide (d.relevanceScore = 1)) ++
   (scored.filter fun d => decide (d.relevanceScore = 2 / 3)) ++
   (scored.filter fun d => decide (d.relevanceScore = 1 / 3)) ++
   (scored.filter fun d => decide (d.relevanceScore = 0))).take 3

/-- Relative percentage adjustment of a directive's target family (§4.4). -/
def scaleFamily (d : CorrectionDirective) (f : List FEntry) : List FEntry :=
  f.map fun e =>
    if e.family = d.targetFamily then
      { e with concentration := e.concentration * (1 + d.adjustmentPct / 100) }
    else e

/-- Proportional redistribution: rescales one note class back to its target
share, so directive application preserves the partition sums (§4.4). -/
def renormClass (nc : NoteClass) (f : List FEntry) : List FEntry :=
  let csum := ((f.filter fun e => decide (e.noteClass = nc)).map
    FEntry.concentration).sum
  if csum = 0 then f
  else
    f.map fun e =>
      if e.noteClass = nc then
        { e with concentration := e.concentration * classShare nc / csum }
      else e

def applyDirective (f : List FEntry) (d : CorrectionDirective) : List FEntry :=
  renormClass .top (renormClass .middle (renormClass .base (scaleFamily d f)))

def applyDirectives (f : List FEntry) (ds : List CorrectionDirective) : List FEntry :=
  ds.foldl applyDirective f

/-- Sustainability metric: fraction of total mass from sustainable
ingredients (§4.6). -/
def sustainabilityScore (f : List FEntry) : ℚ :=
  let total := (f.map FEntry.concentration).sum
  if total = 0 then 0
  else ((f.filter fun e => e.sustainable).map FEntry.concentration).sum / total

structure GenResult where
  formula : List FEntry
  compliance : ComplianceResult
  complianceScore : ℚ
  sustainability : ℚ

/-- The draft handed to the validator: mapper → assembler → directive
application (§4.6 sequencing). -/
def draftFor (p : BiochemicalProfile) (t : EmotionalTarget) : List FEntry :=
  applyDirectives (assemble (EmotionMapper.map t.valence t.arousal)) (retrieve p)

/-- Modelled from the spec: the Orchestrator's `generateFormula` (§4.6),
missing from the source — the returned formula is the validator's output,
and `complianceScore = 1 − violations / ingredients`. -/
def generateFormula (p : BiochemicalProfile) (t : EmotionalTarget) : GenResult :=
  let vr := validate ceilingTable (draftFor p t)
  { formula := vr.1, compliance := vr.2,
    complianceScore := 1 - (vr.2.violations.length : ℚ) / (vr.1.length : ℚ),
    sustainability := sustainabilityScore vr.1 }

/-- C7: for every profile and emotional target the orchestrator only returns
formulas that passed through the Compliance Validator — every returned entry
is within its category ceiling, the formula is exactly the validator's
output on the assembled draft (even when `valid = false`) — and the returned
`complianceScore` equals 1 − (violation count / ingredient count). -/
theorem generateFormula_validated (p : BiochemicalProfile) (t : EmotionalTarget) :
    (generateFormula p t).formula.Forall
      (fun e => e.concentration ≤ ceilingTable e.category) ∧
    (generateFormula p t).formula = (validate ceilingTable (draftFor p t)).1 ∧
    (generateFormula p t).complianceScore =
      1 - ((generateFormula p t).compliance.violations.length : ℚ) /
        ((generateFormula p t).formula.length : ℚ) := by
  refine ⟨?_, rfl, rfl⟩
  rw [List.forall_iff_forall_mem]
  intro e he
  simp only [generateFormula, validate, List.mem_map] at he
  obtain ⟨x, -, rfl⟩ := he
  unfold adjustEntry
  split_ifs with h
  · exact le_refl _
  · exact le_of_not_lt h

/-- C10: `resetAll` restores the initial store — calibration
⟨5.5, none, 36.5, none⟩, neuro-brief ⟨"", 0, 0, none⟩, no formula, step 0,
not generating, no error — and in that state both completeness checks are
false. -/
theorem resetAll_initial_state (s : StoreState) :
    resetAll s =
      { calibration := { ph := 5.5, skinType := none, temperature := 36.5,
                         timestamp := none },
        neuroBrief := { prompt := [], valence := 0, arousal := 0,
                        timestamp := none },
        formula := none, currentStep := 0, isGenerating := false,
        error := none } ∧
    isCalibrationComplete (resetAll s) = false ∧
    isNeuroBriefComplete (resetAll s) = false :=
  ⟨rfl, rfl, rfl⟩

end Sensora
